import Mathlib

/-!
Verification of the peer-orchestration core of a BitTorrent client
(`client.go`) against its natural-language specification.

The Go source is shallowly embedded: pure functions become Lean
functions over `Int` / `Nat` / lists, stateful methods become explicit
state-passing functions on a `ClientState` record, and fallible code
returns `Option` / `Except`.  Go `int` / `time.Duration` values are
64-bit: their arithmetic is modelled on `Int` with Go's truncating
division `Int.tdiv` and explicit two's-complement wrap-around
(`wrap64`) on every operation that can overflow in the domain a claim
quantifies over (the dial-timeout arithmetic); the other embedded
computations act on quantities bounded far below 2^63 (list lengths,
offsets, counters).
-/

namespace TorrentClient

/-! ## Dial timeout (`reducedDialTimeout`, client.go:501-507)

Go source:
```
func reducedDialTimeout(minDialTimeout, max time.Duration, halfOpenLimit int, pendingPeers int) (ret time.Duration) {
    ret = max / time.Duration((pendingPeers+halfOpenLimit)/halfOpenLimit)
    if ret < minDialTimeout {
        ret = minDialTimeout
    }
    return
}
```
Go division on integers truncates toward zero, which is `Int.tdiv`, and
`time.Duration` / `int` are 64-bit: the sum `pendingPeers+halfOpenLimit`
wraps in two's complement, and `x / -1` at the most negative value wraps
as well (the Go spec defines it as overflow, not a panic), so every
arithmetic operation is wrapped with `wrap64`.
-/

/-- Two's-complement wrap-around of 64-bit signed (`int64`) arithmetic:
the representative of `x` in `[-2^63, 2^63)`. -/
def wrap64 (x : Int) : Int :=
  (x + 9223372036854775808) % 18446744073709551616 - 9223372036854775808

/-- The largest `int64` value, `2^63 - 1`. -/
def int64Max : Int := 9223372036854775807

/-- Embedding of `reducedDialTimeout` (client.go:501).  Both divisions are
Go truncating divisions; the sum and each operation result wrap as
`int64`. -/
def reducedDialTimeout (minDialTimeout maxT halfOpenLimit pendingPeers : Int) : Int :=
  let ret := wrap64 (Int.tdiv maxT
    (wrap64 (Int.tdiv (wrap64 (pendingPeers + halfOpenLimit)) halfOpenLimit)))
  if ret < minDialTimeout then minDialTimeout else ret

/-- `wrap64` is the identity on values already in the `int64` range. -/
theorem wrap64_eq_self (x : Int) (h1 : -9223372036854775808 ≤ x)
    (h2 : x ≤ 9223372036854775807) : wrap64 x = x := by
  unfold wrap64
  rw [Int.emod_eq_of_lt (by omega) (by omega)]
  omega

/-- Ceiling division of integers, for a positive divisor. -/
def ceilDiv (a b : Int) : Int := (a + b - 1) / b

/-- The dial-timeout formula exactly as the claim words it: `max` divided by
the CEILING of `(pendingPeers + halfOpenLimit) / halfOpenLimit`, with any
result below `minDialTimeout` replaced by `minDialTimeout`.  Written from the
claim, to be compared with the source embedding `reducedDialTimeout`. -/
def claimedDialTimeoutCeil (minDialTimeout maxT halfOpenLimit pendingPeers : Int) : Int :=
  max minDialTimeout (maxT / ceilDiv (pendingPeers + halfOpenLimit) halfOpenLimit)

/-- The dial-timeout formula with the ceiling replaced by the floor (the
amended claim): `max` divided by the FLOOR of
`(pendingPeers + halfOpenLimit) / halfOpenLimit`, with any result below
`minDialTimeout` replaced by `minDialTimeout`.  `/` on nonnegative `Int`
arguments is floor division. -/
def specDialTimeoutFloor (minDialTimeout maxT halfOpenLimit pendingPeers : Int) : Int :=
  max minDialTimeout (maxT / ((pendingPeers + halfOpenLimit) / halfOpenLimit))

/-- Variant of the `reducedDialTimeout` embedding that makes Go's
division-by-zero panic explicit: `none` exactly when one of the two
divisions in the source has divisor zero — either `halfOpenLimit = 0`,
or the wrapped sum's quotient (which can be zero through `int64`
overflow of `pendingPeers + halfOpenLimit`) is zero. -/
def reducedDialTimeoutChecked (minDialTimeout maxT halfOpenLimit pendingPeers : Int) :
    Option Int :=
  if halfOpenLimit = 0 then none
  else
    let q := wrap64 (Int.tdiv (wrap64 (pendingPeers + halfOpenLimit)) halfOpenLimit)
    if q = 0 then none
    else
      let ret := wrap64 (Int.tdiv maxT q)
      some (if ret < minDialTimeout then minDialTimeout else ret)

/-- Under the claim's preconditions (with the sum in `int64` range) the
inner quotient is at least 1. -/
theorem inner_quotient_pos (halfOpenLimit pendingPeers : Int)
    (hk : 1 ≤ halfOpenLimit) (hp : 0 ≤ pendingPeers) :
    1 ≤ Int.tdiv (pendingPeers + halfOpenLimit) halfOpenLimit := by
  rw [Int.tdiv_eq_ediv (by linarith) (by linarith)]
  exact (Int.le_ediv_iff_mul_le (by linarith)).mpr (by linarith)

/-- A truncating quotient of nonnegative by positive is at most the
dividend. -/
theorem tdiv_le_self_of_nonneg (a b : Int) (ha : 0 ≤ a) (hb : 1 ≤ b) :
    Int.tdiv a b ≤ a := by
  rw [Int.tdiv_eq_ediv ha (by linarith)]
  exact Int.ediv_le_self b ha

/-- C1 counterexample: at `minDialTimeout = 1, max = 10, halfOpenLimit = 2,
pendingPeers = 1` the code returns `10` while the claimed ceiling formula
gives `5`; at `minDialTimeout = 5, max = 3, halfOpenLimit = 1,
pendingPeers = 0` the code returns `5`, not `max = 3` as the claim's
"in particular" sentence asserts; and at
`pendingPeers = halfOpenLimit = 2^63 - 1` (inside the claim's domain) the
`int64` sum wraps to `-2`, the inner quotient truncates to `0` and the
source panics with a division by zero (the checked embedding is `none`)
where the claimed formula asserts the value `5`. -/
theorem reducedDialTimeout_claim_counterexample :
    reducedDialTimeout 1 10 2 1 = 10 ∧
    claimedDialTimeoutCeil 1 10 2 1 = 5 ∧
    reducedDialTimeout 1 10 2 1 ≠ claimedDialTimeoutCeil 1 10 2 1 ∧
    reducedDialTimeout 5 3 1 0 = 5 ∧
    reducedDialTimeout 5 3 1 0 ≠ 3 ∧
    wrap64 (9223372036854775807 + 9223372036854775807) = -2 ∧
    reducedDialTimeoutChecked 1 10 9223372036854775807 9223372036854775807 = none ∧
    claimedDialTimeoutCeil 1 10 9223372036854775807 9223372036854775807 = 5 := by
  refine ⟨by decide, by decide, by decide, by decide, by decide, by decide, by decide,
    by decide⟩

/-- C1 (amended): for `int64` inputs `minDialTimeout, max, halfOpenLimit ≥ 1`
and `pendingPeers ≥ 0` whose sum `pendingPeers + halfOpenLimit` does not
overflow (is at most `2^63 - 1`), `reducedDialTimeout` returns `max`
divided by the FLOOR of `(pendingPeers + halfOpenLimit) / halfOpenLimit`,
except that any result below `minDialTimeout` is replaced by
`minDialTimeout`; with `pendingPeers = 0` it returns exactly `max`
whenever `max ≥ minDialTimeout`. -/
theorem reducedDialTimeout_eq_floor_spec
    (minDialTimeout maxT halfOpenLimit pendingPeers : Int)
    (_hmin : 1 ≤ minDialTimeout) (hmax : 1 ≤ maxT) (hmax2 : maxT ≤ int64Max)
    (hk : 1 ≤ halfOpenLimit) (hp : 0 ≤ pendingPeers)
    (hsum : pendingPeers + halfOpenLimit ≤ int64Max) :
    reducedDialTimeout minDialTimeout maxT halfOpenLimit pendingPeers =
      specDialTimeoutFloor minDialTimeout maxT halfOpenLimit pendingPeers ∧
    (pendingPeers = 0 → minDialTimeout ≤ maxT →
      reducedDialTimeout minDialTimeout maxT halfOpenLimit pendingPeers = maxT) := by
  simp only [int64Max] at hmax2 hsum
  have hw1 : wrap64 (pendingPeers + halfOpenLimit) = pendingPeers + halfOpenLimit :=
    wrap64_eq_self _ (by omega) (by omega)
  have hq1 : 1 ≤ Int.tdiv (pendingPeers + halfOpenLimit) halfOpenLimit :=
    inner_quotient_pos halfOpenLimit pendingPeers hk hp
  have hqle : Int.tdiv (pendingPeers + halfOpenLimit) halfOpenLimit ≤
      pendingPeers + halfOpenLimit :=
    tdiv_le_self_of_nonneg _ _ (by omega) hk
  have hw2 : wrap64 (Int.tdiv (pendingPeers + halfOpenLimit) halfOpenLimit) =
      Int.tdiv (pendingPeers + halfOpenLimit) halfOpenLimit :=
    wrap64_eq_self _ (by omega) (by omega)
  have hret0 : 0 ≤ Int.tdiv maxT (Int.tdiv (pendingPeers + halfOpenLimit) halfOpenLimit) := by
    rw [Int.tdiv_eq_ediv (by omega) (by omega)]
    exact Int.ediv_nonneg (by omega) (by omega)
  have hretle : Int.tdiv maxT (Int.tdiv (pendingPeers + halfOpenLimit) halfOpenLimit) ≤
      maxT :=
    tdiv_le_self_of_nonneg _ _ (by omega) hq1
  have hw3 : wrap64 (Int.tdiv maxT (Int.tdiv (pendingPeers + halfOpenLimit) halfOpenLimit)) =
      Int.tdiv maxT (Int.tdiv (pendingPeers + halfOpenLimit) halfOpenLimit) :=
    wrap64_eq_self _ (by omega) (by omega)
  have htotal : reducedDialTimeout minDialTimeout maxT halfOpenLimit pendingPeers =
      if Int.tdiv maxT (Int.tdiv (pendingPeers + halfOpenLimit) halfOpenLimit) <
          minDialTimeout then minDialTimeout
      else Int.tdiv maxT (Int.tdiv (pendingPeers + halfOpenLimit) halfOpenLimit) := by
    unfold reducedDialTimeout
    rw [hw1, hw2, hw3]
  have htd : Int.tdiv (pendingPeers + halfOpenLimit) halfOpenLimit =
      (pendingPeers + halfOpenLimit) / halfOpenLimit :=
    Int.tdiv_eq_ediv (by linarith) (by linarith)
  have houter : Int.tdiv maxT (Int.tdiv (pendingPeers + halfOpenLimit) halfOpenLimit) =
      maxT / ((pendingPeers + halfOpenLimit) / halfOpenLimit) := by
    rw [htd]
    exact Int.tdiv_eq_ediv (by linarith) (by linarith)
  constructor
  · rw [htotal]
    unfold specDialTimeoutFloor
    simp only [houter]
    rw [max_def]
    split <;> split <;> omega
  · intro hp0 hle
    have hk0 : Int.tdiv (pendingPeers + halfOpenLimit) halfOpenLimit = 1 := by
      rw [hp0, zero_add, Int.tdiv_eq_ediv (by linarith) (by linarith)]
      exact Int.ediv_self (by linarith)
    rw [htotal, hk0, Int.tdiv_one]
    omega

/-- Witness for C1's amended theorem at `minDialTimeout = 2, max = 10,
halfOpenLimit = 2, pendingPeers = 3`. -/
theorem reducedDialTimeout_eq_floor_spec_witness :
    reducedDialTimeout 2 10 2 3 = specDialTimeoutFloor 2 10 2 3 ∧
    reducedDialTimeout 2 10 2 0 = 10 := by
  refine ⟨(reducedDialTimeout_eq_floor_spec 2 10 2 3 (by decide) (by decide)
      (by decide) (by decide) (by decide) (by decide)).1,
    (reducedDialTimeout_eq_floor_spec 2 10 2 0 (by decide) (by decide)
      (by decide) (by decide) (by decide) (by decide)).2 rfl (by decide)⟩

/-- C10 counterexample: at `pendingPeers = halfOpenLimit = 2^63 - 1` —
satisfying the claim's precondition `halfOpenLimit ≥ 1` — the `int64` sum
wraps to `-2`, the inner quotient truncates to `0`, and the source
divides by zero despite the precondition: the division is not
well-defined there, refuting the claim's totality sentence. -/
theorem reducedDialTimeout_totality_counterexample :
    (1 : Int) ≤ 9223372036854775807 ∧
    wrap64 (9223372036854775807 + 9223372036854775807) = -2 ∧
    Int.tdiv (-2) 9223372036854775807 = 0 ∧
    reducedDialTimeoutChecked 3 10 9223372036854775807 9223372036854775807 = none := by
  refine ⟨by decide, by decide, by decide, by decide⟩

/-- C10 (amended): with `halfOpenLimit = 0` the source performs a division
by zero (the checked embedding returns `none`); and even under
`halfOpenLimit ≥ 1` a wrap-induced division by zero occurs when
`pendingPeers + halfOpenLimit` overflows `int64`.  With `halfOpenLimit ≥ 1`,
`pendingPeers ≥ 0` and `pendingPeers + halfOpenLimit ≤ 2^63 - 1` both
divisions are well-defined and the result is at least `minDialTimeout`. -/
theorem reducedDialTimeout_div_by_zero
    (minDialTimeout maxT halfOpenLimit pendingPeers : Int)
    (hk : 1 ≤ halfOpenLimit) (hp : 0 ≤ pendingPeers)
    (hsum : pendingPeers + halfOpenLimit ≤ int64Max) :
    reducedDialTimeoutChecked minDialTimeout maxT 0 pendingPeers = none ∧
    reducedDialTimeoutChecked minDialTimeout maxT halfOpenLimit pendingPeers =
      some (reducedDialTimeout minDialTimeout maxT halfOpenLimit pendingPeers) ∧
    minDialTimeout ≤ reducedDialTimeout minDialTimeout maxT halfOpenLimit pendingPeers := by
  simp only [int64Max] at hsum
  have hw1 : wrap64 (pendingPeers + halfOpenLimit) = pendingPeers + halfOpenLimit :=
    wrap64_eq_self _ (by omega) (by omega)
  have hq1 : 1 ≤ Int.tdiv (pendingPeers + halfOpenLimit) halfOpenLimit :=
    inner_quotient_pos halfOpenLimit pendingPeers hk hp
  have hqle : Int.tdiv (pendingPeers + halfOpenLimit) halfOpenLimit ≤
      pendingPeers + halfOpenLimit :=
    tdiv_le_self_of_nonneg _ _ (by omega) hk
  have hw2 : wrap64 (Int.tdiv (pendingPeers + halfOpenLimit) halfOpenLimit) =
      Int.tdiv (pendingPeers + halfOpenLimit) halfOpenLimit :=
    wrap64_eq_self _ (by omega) (by omega)
  have hk0 : ¬(halfOpenLimit = 0) := by omega
  refine ⟨rfl, ?_, ?_⟩
  · unfold reducedDialTimeoutChecked reducedDialTimeout
    rw [hw1, hw2, if_neg hk0, if_neg (show ¬(Int.tdiv (pendingPeers + halfOpenLimit)
      halfOpenLimit = 0) by omega)]
  · unfold reducedDialTimeout
    rw [hw1, hw2]
    dsimp only
    split <;> omega

/-- Witness for C10's amended theorem at `minDialTimeout = 3, max = 7,
halfOpenLimit = 2, pendingPeers = 5`. -/
theorem reducedDialTimeout_div_by_zero_witness :
    reducedDialTimeoutChecked 3 7 0 5 = none ∧
    reducedDialTimeoutChecked 3 7 2 5 = some (reducedDialTimeout 3 7 2 5) ∧
    3 ≤ reducedDialTimeout 3 7 2 5 :=
  reducedDialTimeout_div_by_zero 3 7 2 5 (by decide) (by decide) (by decide)

/-! ## Accept limiting and admission (`maskIpForAcceptLimiting`,
`rateLimitAccept`, `rejectAccepted`, `badPeerIPPort`, `onBadAccept`,
`clearAcceptLimits`; client.go:398-414, 994-1008, 1319-1356)

IP addresses (`net.IP`) are byte slices, modelled as `List Nat`.  The
accept limiter is a Go map from the string form of the masked IP to an
int count; masked byte lists are in bijection with those strings on all
values the code produces, so the map is modelled as an association list
keyed by the masked byte list, with Go's zero-value-on-missing-key read
(a nil map also reads as zero).  The external blocklist
(`iplist.Ranger`) is out of scope in the spec and is passed in as an
opaque predicate. -/

/-- Embedding of `net.IP.To4` from the Go standard library: the 4-byte
form for a 4-byte address or a 16-byte IPv4-mapped address, else `none`. -/
def ipTo4 (ip : List Nat) : Option (List Nat) :=
  if ip.length = 4 then some ip
  else if ip.length = 16 ∧ ip.take 12 = [0, 0, 0, 0, 0, 0, 0, 0, 0, 0, 255, 255] then
    some (ip.drop 12)
  else none

/-- Embedding of `maskIpForAcceptLimiting` (client.go:1327): /24 mask for
IPv4 (`ip4.Mask(net.CIDRMask(24, 32))` zeroes the last byte), the full
address for IPv6. -/
def maskIpForAcceptLimiting (ip : List Nat) : List Nat :=
  match ipTo4 ip with
  | some ip4 => ip4.take 3 ++ [0]
  | none => ip

/-- Go map read with the zero value for a missing key (also models a nil
map, which reads as zero). -/
def goMapCount (m : List (List Nat × Nat)) (k : List Nat) : Nat :=
  match m with
  | [] => 0
  | (k2, v) :: rest => if k2 = k then v else goMapCount rest k

/-- Go map increment `m[k]++` (inserting the key if absent), as used by
`onBadAccept` (client.go:1319). -/
def goMapIncr (m : List (List Nat × Nat)) (k : List Nat) : List (List Nat × Nat) :=
  match m with
  | [] => [(k, 1)]
  | (k2, v) :: rest => if k2 = k then (k2, v + 1) :: rest else (k2, v) :: goMapIncr rest k

/-- Embedding of `onBadAccept` (client.go:1319): bump the accept limiter
for the masked remote IP. -/
def onBadAccept (limiter : List (List Nat × Nat)) (addrIP : List Nat) :
    List (List Nat × Nat) :=
  goMapIncr limiter (maskIpForAcceptLimiting addrIP)

/-- Embedding of `clearAcceptLimits` (client.go:1334): the limiter map is
set to nil. -/
def clearAcceptLimits : List (List Nat × Nat) := []

/-- Embedding of `rateLimitAccept` (client.go:1351). -/
def rateLimitAccept (disableAcceptRateLimiting : Bool)
    (limiter : List (List Nat × Nat)) (ip : List Nat) : Bool :=
  if disableAcceptRateLimiting then false
  else decide (0 < goMapCount limiter (maskIpForAcceptLimiting ip))

/-- The admission-relevant configuration flags read by `rejectAccepted`. -/
structure AcceptConfig where
  disableIPv4Peers : Bool
  disableIPv4 : Bool
  disableIPv6 : Bool
  disableAcceptRateLimiting : Bool

/-- The admission-relevant client state read by `rejectAccepted`:
doppelganger addresses (a set of host:port strings, modelled as IP-bytes
and port pairs) and banned peer IPs. -/
structure AdmissionState where
  acceptLimiter : List (List Nat × Nat)
  dopplegangerAddrs : List (List Nat × Nat)
  badPeerIPs : List (List Nat)

/-- Embedding of `badPeerIPPort` (client.go:994): port 0 is always bad,
then the doppelganger set, the external blocklist, and the bad-peer set
are consulted in order. -/
def badPeerIPPort (st : AdmissionState) (ipBlocked : List Nat → Bool)
    (ip : List Nat) (port : Nat) : Bool :=
  if port = 0 then true
  else if st.dopplegangerAddrs.contains (ip, port) then true
  else if ipBlocked ip then true
  else if st.badPeerIPs.contains ip then true
  else false

/-- Embedding of `rejectAccepted` (client.go:398): disabled IP families,
then the accept rate limiter, then `badPeerIPPort`. -/
def rejectAccepted (cfg : AcceptConfig) (st : AdmissionState)
    (ipBlocked : List Nat → Bool) (rip : List Nat) (port : Nat) : Bool :=
  if cfg.disableIPv4Peers ∧ (ipTo4 rip).isSome then true
  else if cfg.disableIPv4 ∧ rip.length = 4 then true
  else if cfg.disableIPv6 ∧ rip.length = 16 ∧ (ipTo4 rip).isNone then true
  else if rateLimitAccept cfg.disableAcceptRateLimiting st.acceptLimiter rip then true
  else badPeerIPPort st ipBlocked rip port

/-- C5: with accept rate limiting enabled, any remote IP whose masked form
(/24 for IPv4, full address for IPv6) has a positive accept-limiter count
is rejected by `rejectAccepted`; an IP whose masked form has count zero is
not rejected on that ground (`rateLimitAccept` is false, and in particular
after `clearAcceptLimits` every IP passes the limiter); and two IPv4
addresses in different /24 networks never share a limiter key. -/
theorem acceptLimiter_rejects (cfg : AcceptConfig) (st : AdmissionState)
    (ipBlocked : List Nat → Bool) (rip : List Nat) (port : Nat)
    (hARL : cfg.disableAcceptRateLimiting = false)
    (hcount : 0 < goMapCount st.acceptLimiter (maskIpForAcceptLimiting rip)) :
    rejectAccepted cfg st ipBlocked rip port = true ∧
    (∀ rip2, goMapCount st.acceptLimiter (maskIpForAcceptLimiting rip2) = 0 →
      rateLimitAccept cfg.disableAcceptRateLimiting st.acceptLimiter rip2 = false) ∧
    (∀ rip2, rateLimitAccept cfg.disableAcceptRateLimiting clearAcceptLimits rip2 = false) ∧
    (∀ a b c d a2 b2 c2 d2 : Nat, ¬(a = a2 ∧ b = b2 ∧ c = c2) →
      maskIpForAcceptLimiting [a, b, c, d] ≠ maskIpForAcceptLimiting [a2, b2, c2, d2]) := by
  refine ⟨?_, ?_, ?_, ?_⟩
  · unfold rejectAccepted
    split
    · rfl
    · split
      · rfl
      · split
        · rfl
        · simp [rateLimitAccept, hARL, hcount]
  · intro rip2 hz
    simp [rateLimitAccept, hARL, hz]
  · intro rip2
    simp [rateLimitAccept, hARL, clearAcceptLimits, goMapCount]
  · intro a b c d a2 b2 c2 d2 hne heq
    apply hne
    simpa [maskIpForAcceptLimiting, ipTo4] using heq

/-- Witness for C5: the limiter holding count 1 for 198.51.100.0/24
rejects an accept from 198.51.100.7, while 198.51.101.9 (a sibling /24)
passes the limiter. -/
theorem acceptLimiter_rejects_witness :
    rejectAccepted ⟨false, false, false, false⟩
      ⟨[([198, 51, 100, 0], 1)], [], []⟩ (fun _ => false) [198, 51, 100, 7] 6881 = true ∧
    rateLimitAccept false [([198, 51, 100, 0], 1)] [198, 51, 101, 9] = false := by
  have h := acceptLimiter_rejects ⟨false, false, false, false⟩
    ⟨[([198, 51, 100, 0], 1)], [], []⟩ (fun _ => false) [198, 51, 100, 7] 6881
    rfl (by decide)
  exact ⟨h.1, h.2.1 [198, 51, 101, 9] (by decide)⟩

/-! ## Doppelganger handling (`runHandshookConn`, client.go:852-885)

The post-handshake logic: a connection presenting our own peer id is
never registered with the torrent; if we initiated it, its remote
address is recorded as a doppelganger.  The collaborators called on the
ordinary path — `Torrent.addConnection` and `connection.mainReadLoop`
(torrent.go / connection.go, outside src/) — are passed in as opaque
results. -/

/-- Outcomes of the collaborators consulted on the ordinary (non-self)
path of `runHandshookConn`: `none` means success / clean exit. -/
structure HandshookEnv where
  addConnectionResult : Option String
  mainReadLoopResult : Option String

/-- Observable outcome of `runHandshookConn`: the doppelganger set after
the call, whether `t.addConnection` was reached, and the returned error. -/
structure HandshookOutcome where
  dopplegangerAddrs : List String
  addConnectionReached : Bool
  err : Option String
deriving DecidableEq

/-- Embedding of `runHandshookConn` (client.go:852).  `clPeerID` and
`cPeerID` are the client's and the connection's post-handshake 20-byte
peer ids; `remoteAddrStr` is `c.conn.RemoteAddr().String()`. -/
def runHandshookConn (clPeerID : List Nat) (dopples : List String)
    (cPeerID : List Nat) (outgoing : Bool) (remoteAddrStr : String)
    (env : HandshookEnv) : HandshookOutcome :=
  if cPeerID = clPeerID then
    if outgoing then
      { dopplegangerAddrs := remoteAddrStr :: dopples, addConnectionReached := false,
        err := none }
    else
      { dopplegangerAddrs := dopples, addConnectionReached := false, err := none }
  else
    match env.addConnectionResult with
    | some e =>
        { dopplegangerAddrs := dopples, addConnectionReached := true,
          err := some ("adding connection: " ++ e) }
    | none =>
        match env.mainReadLoopResult with
        | some e =>
            { dopplegangerAddrs := dopples, addConnectionReached := true,
              err := some ("main read loop: " ++ e) }
        | none =>
            { dopplegangerAddrs := dopples, addConnectionReached := true, err := none }

/-- C4: a connection whose post-handshake peer id equals the client's own
is never added to the torrent (`addConnection` is not reached) and the
call returns no error; if the connection is outgoing its remote address
string is in the doppelganger set on return, and if incoming the set is
unchanged. -/
theorem runHandshookConn_self (clPeerID : List Nat) (dopples : List String)
    (cPeerID : List Nat) (outgoing : Bool) (remoteAddrStr : String)
    (env : HandshookEnv) (hself : cPeerID = clPeerID) :
    (runHandshookConn clPeerID dopples cPeerID outgoing remoteAddrStr env).addConnectionReached
      = false ∧
    (runHandshookConn clPeerID dopples cPeerID outgoing remoteAddrStr env).err = none ∧
    (outgoing = true →
      remoteAddrStr ∈
        (runHandshookConn clPeerID dopples cPeerID outgoing remoteAddrStr env).dopplegangerAddrs) ∧
    (outgoing = false →
      (runHandshookConn clPeerID dopples cPeerID outgoing remoteAddrStr env).dopplegangerAddrs
        = dopples) := by
  subst hself
  cases outgoing <;> simp [runHandshookConn]

/-- Witness for C4: a self-connect at peer id `[1, 2]`, outgoing, records
the remote address and never reaches `addConnection`. -/
theorem runHandshookConn_self_witness :
    (runHandshookConn [1, 2] [] [1, 2] true "127.0.0.1:6881"
      ⟨none, none⟩).addConnectionReached = false ∧
    "127.0.0.1:6881" ∈
      (runHandshookConn [1, 2] [] [1, 2] true "127.0.0.1:6881" ⟨none, none⟩).dopplegangerAddrs := by
  have h := runHandshookConn_self [1, 2] [] [1, 2] true "127.0.0.1:6881" ⟨none, none⟩ rfl
  exact ⟨h.1, h.2.2.1 rfl⟩

/-! ## Outgoing connection establishment (`establishOutgoingConn`,
client.go:652-683)

The two possible handshake attempts (`establishOutgoingConnEx`, which
dials and runs the initiator handshakes) are passed in as a function
from the header-obfuscation flag to an abstract attempt result.  The
embedding records the ordered list of attempted obfuscation flags. -/

/-- Result of one `establishOutgoingConnEx` attempt: a connection, no
connection for valid reasons (`nil, nil`), or an error. -/
inductive AttemptResult where
  | conn
  | noConn
  | errResult (e : String)
deriving DecidableEq

/-- Observable outcome of `establishOutgoingConn`: whether a connection
was established, the returned error, the ordered obfuscation flags of the
attempts made, and whether the inconsistent-policy panic fired. -/
structure OutgoingConnOutcome where
  connEstablished : Bool
  err : Option String
  attempts : List Bool
  panicked : Bool
deriving DecidableEq

/-- Embedding of `establishOutgoingConn` (client.go:652).  `attempt b` is
the result of `establishOutgoingConnEx` with `obfuscatedHeader = b`. -/
def establishOutgoingConn (forceEncryption disableEncryption preferNoEncryption : Bool)
    (attempt : Bool → AttemptResult) : OutgoingConnOutcome :=
  let obfuscatedHeaderFirst := !disableEncryption && !preferNoEncryption
  match attempt obfuscatedHeaderFirst with
  | .errResult e =>
      { connEstablished := false, err := some e, attempts := [obfuscatedHeaderFirst],
        panicked := false }
  | .conn =>
      { connEstablished := true, err := none, attempts := [obfuscatedHeaderFirst],
        panicked := false }
  | .noConn =>
      if forceEncryption then
        if !obfuscatedHeaderFirst then
          { connEstablished := false, err := none, attempts := [obfuscatedHeaderFirst],
            panicked := true }
        else
          { connEstablished := false, err := none, attempts := [obfuscatedHeaderFirst],
            panicked := false }
      else
        match attempt (!obfuscatedHeaderFirst) with
        | .errResult e =>
            { connEstablished := false, err := some e,
              attempts := [obfuscatedHeaderFirst, !obfuscatedHeaderFirst], panicked := false }
        | .conn =>
            { connEstablished := true, err := none,
              attempts := [obfuscatedHeaderFirst, !obfuscatedHeaderFirst], panicked := false }
        | .noConn =>
            { connEstablished := false, err := none,
              attempts := [obfuscatedHeaderFirst, !obfuscatedHeaderFirst], panicked := false }

/-- C6: with `ForceEncryption` set (and the other two mutually exclusive
encryption-policy flags unset, per the spec's enum
`{ForceEncryption, DisableEncryption, PreferNoEncryption, default}`),
exactly one attempt is made and it uses the obfuscated header; no
plaintext retry ever occurs, and a connection is established only when
that single obfuscated attempt succeeds. -/
theorem establishOutgoingConn_forceEncryption (attempt : Bool → AttemptResult) :
    (establishOutgoingConn true false false attempt).attempts = [true] ∧
    (establishOutgoingConn true false false attempt).panicked = false ∧
    ((establishOutgoingConn true false false attempt).connEstablished = true ↔
      attempt true = .conn) := by
  unfold establishOutgoingConn
  cases h : attempt true <;> simp [h]

/-! ## Client registry and lifecycle (`AddTorrentInfoHashWithStorage`,
`dropTorrent`, `Close`; client.go:349-363, 1063-1084, 1113-1125)

The client's observable state is a record: the closed latch, the
listener set (`conns`), the torrents registry (an association list from
infohash to session), the accept limiter, the uPnP mappings, and
counters for on-close callback invocations and event broadcasts.
Sessions are identified by an id drawn from a counter, so that "the
identical session object" is expressible.  Infohashes are modelled as
`Nat`. -/

/-- A torrent session as the registry sees it: its identity and its
closed latch.  `Torrent.close` (torrent.go, outside src/) is modelled
from the spec: closing a session latches it closed. -/
structure TorrentSession where
  id : Nat
  closed : Bool
deriving DecidableEq

/-- Modelled from the spec: `Torrent.close` ("closes every session (which
closes every Connection)") latches the session's closed flag. -/
def closeTorrentSession (t : TorrentSession) : TorrentSession :=
  { t with closed := true }

/-- The client's observable state. -/
structure ClientState where
  closed : Bool
  conns : List Nat
  torrents : List (Nat × TorrentSession)
  acceptLimiter : List (List Nat × Nat)
  upnpMappings : List Nat
  onCloseCallbacks : Nat
  onCloseInvocations : Nat
  eventBroadcasts : Nat
  nextSessionId : Nat
deriving DecidableEq

/-- Go map read `cl.torrents[ih]` with presence flag. -/
def lookupTorrent : List (Nat × TorrentSession) → Nat → Option TorrentSession
  | [], _ => none
  | (k, t) :: rest, ih => if k = ih then some t else lookupTorrent rest ih

/-- Go map `delete(cl.torrents, ih)`. -/
def eraseTorrent (ts : List (Nat × TorrentSession)) (ih : Nat) :
    List (Nat × TorrentSession) :=
  ts.filter (fun p => p.1 != ih)

/-- Result of `AddTorrentInfoHashWithStorage`: the returned session
handle, the `new` flag, and the client state after the call. -/
structure AddResult where
  session : TorrentSession
  isNew : Bool
  state : ClientState
deriving DecidableEq

/-- Embedding of `AddTorrentInfoHashWithStorage` (client.go:1063): return
the existing session with `new = false` if the infohash is registered;
otherwise construct a fresh session (`newTorrent`), register it, clear
the accept limiter, and broadcast the shared event.  The storage
override, the DHT announcer tasks, and `updateWantPeersEvent` do not
touch the observable state modelled here. -/
def addTorrentInfoHash (s : ClientState) (ih : Nat) : AddResult :=
  match lookupTorrent s.torrents ih with
  | some t => { session := t, isNew := false, state := s }
  | none =>
      let t : TorrentSession := { id := s.nextSessionId, closed := false }
      { session := t, isNew := true,
        state := { s with
          torrents := s.torrents ++ [(ih, t)],
          nextSessionId := s.nextSessionId + 1,
          acceptLimiter := [],
          eventBroadcasts := s.eventBroadcasts + 1 } }

/-- Result of `dropTorrent`: the client state after the call, the
returned error, and (for observability) the session that was closed
before being deleted from the registry, if any. -/
structure DropResult where
  state : ClientState
  err : Option String
  closedSession : Option TorrentSession
deriving DecidableEq

/-- Embedding of `dropTorrent` (client.go:1113): a missing infohash
yields the not-found error and no state change; otherwise the session is
closed and its key deleted from the registry. -/
def dropTorrent (s : ClientState) (ih : Nat) : DropResult :=
  match lookupTorrent s.torrents ih with
  | none => { state := s, err := some "no such torrent", closedSession := none }
  | some t =>
      let tc := closeTorrentSession t
      { state := { s with torrents := eraseTorrent s.torrents ih },
        err := none, closedSession := some tc }

/-- Embedding of `Close` (client.go:349): latch `closed`, close all
listener sockets (`closeSockets` sets `cl.conns = nil`), close every
registered session, clear the port mappings, invoke the on-close
callbacks, and broadcast the shared event. -/
def closeClient (s : ClientState) : ClientState :=
  { s with
    closed := true,
    conns := [],
    torrents := s.torrents.map (fun p => (p.1, closeTorrentSession p.2)),
    upnpMappings := [],
    onCloseInvocations := s.onCloseInvocations + s.onCloseCallbacks,
    eventBroadcasts := s.eventBroadcasts + 1 }

/-- Looking up the key just appended to a registry that did not contain
it finds the appended session. -/
theorem lookupTorrent_append_self (ts : List (Nat × TorrentSession)) (ih : Nat)
    (t : TorrentSession) (h : lookupTorrent ts ih = none) :
    lookupTorrent (ts ++ [(ih, t)]) ih = some t := by
  induction ts with
  | nil => simp [lookupTorrent]
  | cons p rest ihp =>
      rw [List.cons_append]
      unfold lookupTorrent at h ⊢
      rcases p with ⟨k, u⟩
      by_cases hk : k = ih
      · simp [hk] at h
      · simpa [hk] using ihp (by simpa [hk] using h)

/-- Deleting a key from the registry removes it. -/
theorem lookupTorrent_erase (ts : List (Nat × TorrentSession)) (ih : Nat) :
    lookupTorrent (eraseTorrent ts ih) ih = none := by
  induction ts with
  | nil => rfl
  | cons p rest ihp =>
      rcases p with ⟨k, u⟩
      by_cases hk : k = ih
      · simpa [eraseTorrent, hk] using ihp
      · unfold eraseTorrent at ihp ⊢
        simp only [List.filter_cons]
        rw [if_pos (by simpa using hk)]
        unfold lookupTorrent
        simpa [hk] using ihp

/-- Adding an infohash already in the registry returns the registered
session unchanged with `new = false`. -/
theorem addTorrentInfoHash_present (s : ClientState) (ih : Nat) (t : TorrentSession)
    (h : lookupTorrent s.torrents ih = some t) :
    addTorrentInfoHash s ih = { session := t, isNew := false, state := s } := by
  unfold addTorrentInfoHash
  rw [h]

/-- C7: adding an infohash not yet registered returns a new session with
`new = true`, registers it, clears the accept limiter, and broadcasts the
shared event; adding the same infohash again returns the identical
session with `new = false` and leaves the state unchanged. -/
theorem addTorrentInfoHash_spec (s : ClientState) (ih : Nat)
    (habsent : lookupTorrent s.torrents ih = none) :
    (addTorrentInfoHash s ih).isNew = true ∧
    lookupTorrent (addTorrentInfoHash s ih).state.torrents ih =
      some (addTorrentInfoHash s ih).session ∧
    (addTorrentInfoHash s ih).state.acceptLimiter = [] ∧
    (addTorrentInfoHash s ih).state.eventBroadcasts = s.eventBroadcasts + 1 ∧
    (addTorrentInfoHash ((addTorrentInfoHash s ih).state) ih).session =
      (addTorrentInfoHash s ih).session ∧
    (addTorrentInfoHash ((addTorrentInfoHash s ih).state) ih).isNew = false ∧
    (addTorrentInfoHash ((addTorrentInfoHash s ih).state) ih).state =
      (addTorrentInfoHash s ih).state := by
  have h1 : addTorrentInfoHash s ih =
      { session := { id := s.nextSessionId, closed := false }, isNew := true,
        state := { s with
          torrents := s.torrents ++ [(ih, { id := s.nextSessionId, closed := false })],
          nextSessionId := s.nextSessionId + 1,
          acceptLimiter := [],
          eventBroadcasts := s.eventBroadcasts + 1 } } := by
    unfold addTorrentInfoHash
    rw [habsent]
  have h2 : lookupTorrent (addTorrentInfoHash s ih).state.torrents ih =
      some (addTorrentInfoHash s ih).session := by
    rw [h1]
    exact lookupTorrent_append_self s.torrents ih _ habsent
  have h3 : addTorrentInfoHash ((addTorrentInfoHash s ih).state) ih =
      { session := (addTorrentInfoHash s ih).session, isNew := false,
        state := (addTorrentInfoHash s ih).state } :=
    addTorrentInfoHash_present ((addTorrentInfoHash s ih).state) ih
      ((addTorrentInfoHash s ih).session) h2
  refine ⟨by rw [h1], h2, by rw [h1], by rw [h1], by rw [h3], by rw [h3], by rw [h3]⟩

/-- Witness for C7 on an empty client: adding infohash 42 is new and
registers session 0; adding it again returns the same session, not new,
with no state change. -/
theorem addTorrentInfoHash_spec_witness :
    (addTorrentInfoHash ⟨false, [], [], [], [], 0, 0, 0, 0⟩ 42).isNew = true ∧
    (addTorrentInfoHash
      ((addTorrentInfoHash ⟨false, [], [], [], [], 0, 0, 0, 0⟩ 42).state) 42).isNew = false ∧
    (addTorrentInfoHash
      ((addTorrentInfoHash ⟨false, [], [], [], [], 0, 0, 0, 0⟩ 42).state) 42).session =
      (addTorrentInfoHash ⟨false, [], [], [], [], 0, 0, 0, 0⟩ 42).session := by
  have h := addTorrentInfoHash_spec ⟨false, [], [], [], [], 0, 0, 0, 0⟩ 42 rfl
  exact ⟨h.1, h.2.2.2.2.2.1, h.2.2.2.2.1⟩

/-- C8: dropping an unregistered infohash returns the not-found error and
leaves the client state unchanged; dropping a registered one closes the
session, deletes it from the registry, leaves the rest of the state
unchanged, and returns no error. -/
theorem dropTorrent_spec (s : ClientState) (ih : Nat) :
    (lookupTorrent s.torrents ih = none →
      dropTorrent s ih = { state := s, err := some "no such torrent", closedSession := none }) ∧
    (∀ t, lookupTorrent s.torrents ih = some t →
      (dropTorrent s ih).err = none ∧
      (dropTorrent s ih).closedSession = some (closeTorrentSession t) ∧
      lookupTorrent (dropTorrent s ih).state.torrents ih = none ∧
      (dropTorrent s ih).state = { s with torrents := eraseTorrent s.torrents ih }) := by
  constructor
  · intro h
    unfold dropTorrent
    rw [h]
  · intro t h
    have hd : dropTorrent s ih =
        { state := { s with torrents := eraseTorrent s.torrents ih },
          err := none, closedSession := some (closeTorrentSession t) } := by
      unfold dropTorrent
      rw [h]
    exact ⟨by rw [hd], by rw [hd], by rw [hd]; exact lookupTorrent_erase s.torrents ih,
      by rw [hd]⟩

/-- Witness for C8: dropping infohash 5 from a client that has only
infohash 3 fails with the not-found error; dropping infohash 3 succeeds
and removes it. -/
theorem dropTorrent_spec_witness :
    dropTorrent ⟨false, [], [(3, ⟨0, false⟩)], [], [], 0, 0, 0, 1⟩ 5 =
      { state := ⟨false, [], [(3, ⟨0, false⟩)], [], [], 0, 0, 0, 1⟩,
        err := some "no such torrent", closedSession := none } ∧
    (dropTorrent ⟨false, [], [(3, ⟨0, false⟩)], [], [], 0, 0, 0, 1⟩ 3).err = none ∧
    lookupTorrent
      (dropTorrent ⟨false, [], [(3, ⟨0, false⟩)], [], [], 0, 0, 0, 1⟩ 3).state.torrents 3 =
      none := by
  refine ⟨(dropTorrent_spec ⟨false, [], [(3, ⟨0, false⟩)], [], [], 0, 0, 0, 1⟩ 5).1 rfl,
    ((dropTorrent_spec ⟨false, [], [(3, ⟨0, false⟩)], [], [], 0, 0, 0, 1⟩ 3).2
      ⟨0, false⟩ rfl).1,
    ((dropTorrent_spec ⟨false, [], [(3, ⟨0, false⟩)], [], [], 0, 0, 0, 1⟩ 3).2
      ⟨0, false⟩ rfl).2.2.1⟩

/-- C9: `Close` is idempotent on the observable state the claim names:
after a second `Close`, the closed latch is still set and the listener
set, the torrents registry, and the port mappings all equal their values
after the first `Close`. -/
theorem closeClient_idempotent (s : ClientState) :
    (closeClient s).closed = true ∧
    (closeClient (closeClient s)).closed = (closeClient s).closed ∧
    (closeClient (closeClient s)).conns = (closeClient s).conns ∧
    (closeClient (closeClient s)).torrents = (closeClient s).torrents ∧
    (closeClient (closeClient s)).upnpMappings = (closeClient s).upnpMappings := by
  refine ⟨rfl, rfl, rfl, ?_, rfl⟩
  show (s.torrents.map _).map _ = s.torrents.map _
  rw [List.map_map]
  rfl

/-! ## Metadata extension messages (`gotMetadataExtensionMsg`,
client.go:953-992)

The bencode decoder is an external collaborator; the function is
embedded over its output, a `map[string]int` modelled as an association
list (`none` models an unmarshalling error that is not
`ErrUnusedTrailingBytes`).  Go map reads of missing keys give the zero
value.  Torrent- and connection-side metadata helpers live outside src/
and are modelled from the spec where needed. -/

/-- BEP 9 extension message type constants from the peer-protocol
package (outside src/).  Modelled from the spec: the integer msg_type
values are defined by BEP 9 — request = 0, data = 1, reject = 2. -/
def RequestMetadataExtensionMsgType : Int := 0

/-- BEP 9 data message type; see `RequestMetadataExtensionMsgType`. -/
def DataMetadataExtensionMsgType : Int := 1

/-- BEP 9 reject message type; see `RequestMetadataExtensionMsgType`. -/
def RejectMetadataExtensionMsgType : Int := 2

/-- Go `map[string]int` read: the zero value 0 for a missing key. -/
def goDictGet (d : List (String × Int)) (k : String) : Int :=
  (d.lookup k).getD 0

/-- The connection-side metadata state: the per-piece pending-request
flags, the useful-chunk timestamp (modelled as a was-it-set flag), the
metadata-chunks-read counter, and the extension messages posted by the
handler, each as (msg_type, piece, data). -/
structure MetaConn where
  metadataRequests : List Bool
  lastUsefulChunkSet : Bool
  metadataChunksRead : Nat
  posts : List (Int × Int × List Nat)
deriving DecidableEq

/-- The torrent-side metadata state: the metadata buffer, the per-piece
completion flags, and whether info-bytes have been set. -/
structure MetaTorrent where
  metadataBytes : List Nat
  metadataCompletedPieces : List Bool
  infoSet : Bool
deriving DecidableEq

/-- Modelled from the spec: `connection.requestedMetadataPiece`
(connection.go, outside src/) reads the pending flag deduplicating
requests per (piece, peer); out-of-range pieces are not pending. -/
def requestedMetadataPiece (c : MetaConn) (piece : Int) : Bool :=
  decide (0 ≤ piece) && c.metadataRequests.getD piece.toNat false

/-- Modelled from the spec: `metadataPieceSize` (outside src/) — pieces
are 16 KiB each, the last piece holding the remainder of the advertised
total. -/
def metadataPieceSize (totalSize piece : Int) : Int :=
  min (totalSize - piece * 16384) 16384

/-- Write `data` into `buf` starting at offset `off`, keeping the buffer
length (Go `copy(buf[off:], data)`). -/
def writeBytesAt (buf : List Nat) (off : Nat) (data : List Nat) : List Nat :=
  (List.range buf.length).map fun i =>
    if off ≤ i ∧ i < off + data.length then data.getD (i - off) 0 else buf.getD i 0

/-- Modelled from the spec: `Torrent.saveMetadataPiece` (torrent.go,
outside src/) copies the received piece into the metadata buffer at
`piece * 16384` and marks the piece complete. -/
def saveMetadataPiece (t : MetaTorrent) (piece : Int) (data : List Nat) : MetaTorrent :=
  { t with
    metadataBytes := writeBytesAt t.metadataBytes (piece.toNat * 16384) data,
    metadataCompletedPieces := t.metadataCompletedPieces.set piece.toNat true }

/-- Modelled from the spec: `Torrent.haveMetadataPiece` (torrent.go,
outside src/) — whether that piece of the metadata buffer is filled. -/
def haveMetadataPiece (t : MetaTorrent) (piece : Int) : Bool :=
  decide (0 ≤ piece) && t.metadataCompletedPieces.getD piece.toNat false

/-- Modelled from the spec: `Torrent.maybeCompleteMetadata` (torrent.go,
outside src/) — on buffer complete, validate SHA-1 against the InfoHash
and set info-bytes, or discard and re-request on mismatch.  Whether the
assembled bytes hash to the infohash is supplied as the oracle
`hashMatches`. -/
def maybeCompleteMetadata (hashMatches : List Nat → Bool) (t : MetaTorrent) :
    Except String MetaTorrent :=
  if t.metadataCompletedPieces.length ≠ 0 ∧ t.metadataCompletedPieces.all (fun b => b) then
    if hashMatches t.metadataBytes then .ok { t with infoSet := true }
    else .ok { t with metadataCompletedPieces := t.metadataCompletedPieces.map fun _ => false }
  else .ok t

/-- Modelled from the spec: `Torrent.metadataPieceSize` (torrent.go,
outside src/) computed from the buffer's advertised total size. -/
def torrentMetadataPieceSize (t : MetaTorrent) (piece : Int) : Int :=
  metadataPieceSize (t.metadataBytes.length : Int) piece

/-- Embedding of `gotMetadataExtensionMsg` (client.go:953).  `decoded` is
the bencode decoder's output (`none` = unmarshalling error); `payload`
is the raw extension payload bytes, used by the Data branch for the
offset computation and the piece data. -/
def gotMetadataExtensionMsg (hashMatches : List Nat → Bool)
    (decoded : Option (List (String × Int))) (payload : List Nat)
    (t : MetaTorrent) (c : MetaConn) : Except String (MetaTorrent × MetaConn) :=
  match decoded with
  | none => .error "error unmarshalling bencode"
  | some d =>
    if (d.lookup "msg_type").isNone then .error "missing msg_type field"
    else
      let msgType := goDictGet d "msg_type"
      let piece := goDictGet d "piece"
      if msgType = DataMetadataExtensionMsgType then
        let c := { c with metadataChunksRead := c.metadataChunksRead + 1 }
        if !requestedMetadataPiece c piece then .error "got unexpected piece"
        else
          let c := { c with metadataRequests := c.metadataRequests.set piece.toNat false }
          let begin0 : Int := (payload.length : Int) -
            metadataPieceSize (goDictGet d "total_size") piece
          if begin0 < 0 ∨ (payload.length : Int) ≤ begin0 then
            .error "data has bad offset in payload"
          else
            let t := saveMetadataPiece t piece (payload.drop begin0.toNat)
            let c := { c with lastUsefulChunkSet := true }
            (maybeCompleteMetadata hashMatches t).map fun t2 => (t2, c)
      else if msgType = RequestMetadataExtensionMsgType then
        if !haveMetadataPiece t piece then
          .ok (t, { c with posts := c.posts ++ [(RejectMetadataExtensionMsgType, piece, [])] })
        else
          let start := 16384 * piece
          .ok (t, { c with posts := c.posts ++ [(DataMetadataExtensionMsgType, piece,
            (t.metadataBytes.drop start.toNat).take (torrentMetadataPieceSize t piece).toNat)] })
      else if msgType = RejectMetadataExtensionMsgType then
        .ok (t, c)
      else .error "unknown msg_type value"

/-- C2 counterexample: a connection with a pending request for piece 0
receives a well-formed Reject for piece 0; the call returns no error but
the pending flag is NOT cleared — `metadataRequests` is returned exactly
as it was, still pending. -/
theorem gotMetadata_reject_counterexample :
    gotMetadataExtensionMsg (fun _ => false)
      (some [("msg_type", 2), ("piece", 0)]) []
      ⟨[], [], false⟩ ⟨[true], false, 0, []⟩ =
      .ok (⟨[], [], false⟩, ⟨[true], false, 0, []⟩) ∧
    requestedMetadataPiece ⟨[true], false, 0, []⟩ 0 = true := by
  exact ⟨rfl, rfl⟩

/-- C2 (amended): on a well-formed extension payload whose msg_type is
Reject, `gotMetadataExtensionMsg` returns no error and leaves both the
torrent and the connection — in particular every pending-request flag —
unchanged: the flag for the rejected piece stays set rather than being
cleared. -/
theorem gotMetadata_reject_leaves_pending (hashMatches : List Nat → Bool)
    (d : List (String × Int)) (payload : List Nat) (t : MetaTorrent) (c : MetaConn)
    (hmt : d.lookup "msg_type" = some RejectMetadataExtensionMsgType) :
    gotMetadataExtensionMsg hashMatches (some d) payload t c = .ok (t, c) := by
  simp [gotMetadataExtensionMsg, goDictGet, hmt, RejectMetadataExtensionMsgType,
    DataMetadataExtensionMsgType, RequestMetadataExtensionMsgType]

/-- Witness for C2's amended theorem: a Reject for piece 1 on a
connection with pending requests for pieces 0 and 1 returns success with
the connection state intact. -/
theorem gotMetadata_reject_leaves_pending_witness :
    gotMetadataExtensionMsg (fun _ => true)
      (some [("msg_type", 2), ("piece", 1)]) [7, 7]
      ⟨[1, 2], [false], false⟩ ⟨[true, true], false, 3, []⟩ =
      .ok (⟨[1, 2], [false], false⟩, ⟨[true, true], false, 3, []⟩) :=
  gotMetadata_reject_leaves_pending (fun _ => true)
    [("msg_type", 2), ("piece", 1)] [7, 7]
    ⟨[1, 2], [false], false⟩ ⟨[true, true], false, 3, []⟩ rfl

/-! ## Receiver-side handshakes (`receiveHandshakes`, client.go:762-798;
`runReceivedConn`, client.go:813-850)

`handleEncryption` (encryption.go, outside src/) and `connBTHandshake`'s
wire exchange (`pp.Handshake`, external) are passed in as abstract
outcomes; the control flow of `receiveHandshakes` and `runReceivedConn`
is translated from the source.  Torrents are identified by `Nat` ids and
infohashes by `Nat`. -/

/-- Outcome of `handleEncryption`: success, the no-secret-key-match
condition (the stream looked like MSE but no loaded infohash matched),
or any other error. -/
inductive EncResult where
  | ok
  | noSecretKeyMatch
  | otherErr
deriving DecidableEq

/-- Outcome of the BitTorrent handshake exchange (`pp.Handshake`): ok
with the received infohash, not-ok for valid reasons, or an I/O error. -/
inductive BTResult where
  | success (ih : Nat)
  | notOk
  | errBT (e : String)
deriving DecidableEq

/-- Observable outcome of `receiveHandshakes`: the selected torrent (if
any), the returned error, and whether the BitTorrent handshake was
attempted on the stream. -/
structure ReceiveOutcome where
  torrent : Option Nat
  err : Option String
  btHandshakeAttempted : Bool
deriving DecidableEq

/-- Go map read `cl.torrents[ih]` over ids. -/
def lookupTorrentId : List (Nat × Nat) → Nat → Option Nat
  | [], _ => none
  | (k, t) :: rest, ih => if k = ih then some t else lookupTorrentId rest ih

/-- Embedding of `receiveHandshakes` (client.go:762).  `headerEncrypted`
is the flag produced by `handleEncryption` alongside its result. -/
def receiveHandshakes (encResult : EncResult) (headerEncrypted : Bool)
    (forceEncryption : Bool) (bt : BTResult) (torrents : List (Nat × Nat)) :
    ReceiveOutcome :=
  match encResult with
  | .otherErr =>
      { torrent := none, err := some "error while handling encryption",
        btHandshakeAttempted := false }
  | .noSecretKeyMatch =>
      { torrent := none, err := none, btHandshakeAttempted := false }
  | .ok =>
      if forceEncryption && !headerEncrypted then
        { torrent := none, err := some "connection not encrypted",
          btHandshakeAttempted := false }
      else
        match bt with
        | .errBT e =>
            { torrent := none, err := some ("error during bt handshake: " ++ e),
              btHandshakeAttempted := true }
        | .notOk =>
            { torrent := none, err := none, btHandshakeAttempted := true }
        | .success ih =>
            { torrent := lookupTorrentId torrents ih, err := none,
              btHandshakeAttempted := true }

/-- How `runReceivedConn` disposes of the connection after
`receiveHandshakes`: bump the accept limiter on a handshake error, bump
it on a nil torrent (unloaded-torrent path), or run the handshook
connection against the selected torrent. -/
inductive ReceivedConnAction where
  | badAcceptOnErr
  | badAcceptUnloaded
  | runHandshook (t : Nat)
deriving DecidableEq

/-- Embedding of the dispatch in `runReceivedConn` (client.go:813). -/
def runReceivedConn (encResult : EncResult) (headerEncrypted : Bool)
    (forceEncryption : Bool) (bt : BTResult) (torrents : List (Nat × Nat)) :
    ReceivedConnAction :=
  let r := receiveHandshakes encResult headerEncrypted forceEncryption bt torrents
  match r.err with
  | some _ => .badAcceptOnErr
  | none =>
      match r.torrent with
      | none => .badAcceptUnloaded
      | some t => .runHandshook t

/-- C3 counterexample: with torrent id 1 loaded under infohash 7 and a
BitTorrent handshake that would produce infohash 7, a no-secret-key-match
outcome still yields no selected torrent and no BT handshake attempt, and
`runReceivedConn` takes the unloaded-torrent bad-accept path — the claim
that the stream is then treated as plaintext and a loaded torrent can be
selected is false. -/
theorem receiveHandshakes_noSecretKeyMatch_counterexample :
    (receiveHandshakes .noSecretKeyMatch false false (.success 7) [(7, 1)]).torrent = none ∧
    (receiveHandshakes .noSecretKeyMatch false false (.success 7)
      [(7, 1)]).btHandshakeAttempted = false ∧
    runReceivedConn .noSecretKeyMatch false false (.success 7) [(7, 1)] =
      .badAcceptUnloaded ∧
    (receiveHandshakes .ok false false (.success 7) [(7, 1)]).torrent = some 1 := by
  exact ⟨rfl, rfl, rfl, rfl⟩

/-- C3 (amended): when the encryption phase ends with no-secret-key-match
the error is suppressed (`err = nil`), but `receiveHandshakes` returns
immediately with a nil torrent and without attempting the BitTorrent
handshake, so `runReceivedConn` treats the connection like one for an
unloaded torrent and bumps the accept limiter. -/
theorem receiveHandshakes_noSecretKeyMatch (headerEncrypted forceEncryption : Bool)
    (bt : BTResult) (torrents : List (Nat × Nat)) :
    (receiveHandshakes .noSecretKeyMatch headerEncrypted forceEncryption bt torrents).err
      = none ∧
    (receiveHandshakes .noSecretKeyMatch headerEncrypted forceEncryption bt torrents).torrent
      = none ∧
    (receiveHandshakes .noSecretKeyMatch headerEncrypted forceEncryption bt
      torrents).btHandshakeAttempted = false ∧
    runReceivedConn .noSecretKeyMatch headerEncrypted forceEncryption bt torrents =
      .badAcceptUnloaded := by
  exact ⟨rfl, rfl, rfl, rfl⟩

end TorrentClient
